import Mathlib

/-
Shallow embedding of the CDC WONDER extraction pipeline
(cdc_wonder_extractor.py, extract_data.py) and of the Google Sheets
uploader (load_gcloud.py), together with theorems settling the
specification claims about them.

Conventions of the embedding:
* Python dicts with string keys are modelled as association lists
  `List (String × α)` in insertion order; `dictSet` is `d[k] = v`.
* The HTTP layer is abstracted by an `endpoint : Nat → HttpResult`
  giving the result of the POST performed on each attempt, and a
  `jitter : Nat → Rat` stream giving the successive `random.uniform(0,1)`
  draws (one per backoff sleep, indexed by attempt number).
* Side effects (POSTs, `time.sleep`, diagnostic file writes) are recorded
  in an event trace; exceptions escaping `submit_request` become values of
  the `Outcome` type.
-/

set_option autoImplicit false

namespace CdcWonder

/-- A Python value stored in the parameter dictionary: `None`, a string,
or a list of strings (multi-valued parameters such as several years). -/
inductive PValue where
  | null
  | str (s : String)
  | list (l : List String)
  deriving DecidableEq, Repr

/-- A parameter dictionary, in insertion order. -/
abbrev Params := List (String × PValue)

/-- Python dict assignment `d[k] = v`: overwrite in place if the key is
present, append otherwise. -/
def dictSet (l : Params) (k : String) (v : PValue) : Params :=
  if l.any (fun p => p.1 = k) then
    l.map (fun p => if p.1 = k then (k, v) else p)
  else
    l ++ [(k, v)]

/-- The filter applied in `cdc_wonder_extractor.submit_request`:
`value is not None and value != '' and value != '*None*'`.
(A Python list compares unequal to any string, so list values are kept.) -/
def keepValue : PValue → Bool
  | PValue.null => false
  | PValue.str s => s != "" && s != "*None*"
  | PValue.list _ => true

/-- The request-parameter preprocessing of
`cdc_wonder_extractor.submit_request` (lines 86-101): drop `None`, `''`
and `'*None*'` values, then fill in defaults for missing `dataset_code`,
`stage` and `action-Send` keys.  Note that this function injects no
`accept_datause_restrictions` consent flag. -/
def submit_request_params (params : Params) : Params :=
  let rp := params.filter (fun p => keepValue p.2)
  let rp := if rp.any (fun p => p.1 = "dataset_code") then rp
    else rp ++ [("dataset_code", PValue.str "D176")]
  let rp := if rp.any (fun p => p.1 = "stage") then rp
    else rp ++ [("stage", PValue.str "request")]
  let rp := if rp.any (fun p => p.1 = "action-Send") then rp
    else rp ++ [("action-Send", PValue.str "Send")]
  rp

/-- The parameter preprocessing of the older `extract_data.submit_request`
(line 66): it only executes `params['accept_datause_restrictions'] = 'true'`;
there is no filtering and no defaulting there. -/
def submit_request_params_extract_data (params : Params) : Params :=
  dictSet params "accept_datause_restrictions" (PValue.str "true")

/-- Modelled from the claim C3 wording (for refinement comparison only):
the input with empty/null/`'*None*'` entries removed, defaults filled in
for missing `dataset_code`, `stage` and `action-Send`, and the fixed
data-use consent flag added. -/
def claim_submitted_params (params : Params) : Params :=
  let rp := params.filter (fun p => keepValue p.2)
  let rp := if rp.any (fun p => p.1 = "dataset_code") then rp
    else rp ++ [("dataset_code", PValue.str "D176")]
  let rp := if rp.any (fun p => p.1 = "stage") then rp
    else rp ++ [("stage", PValue.str "request")]
  let rp := if rp.any (fun p => p.1 = "action-Send") then rp
    else rp ++ [("action-Send", PValue.str "Send")]
  dictSet rp "accept_datause_restrictions" (PValue.str "true")

/-- Python `str.strip()`: remove leading and trailing whitespace.
Implemented by structural recursion on the character list so that it
evaluates inside the kernel (`String.trim` is definitionally opaque). -/
def pyStrip (s : String) : String :=
  ⟨((s.data.dropWhile Char.isWhitespace).reverse.dropWhile
      Char.isWhitespace).reverse⟩

/-- One `<parameter>` element of an XML request descriptor: a name and the
text contents of its `<value>` children (`Option.none` models an element
whose text is Python `None`). -/
structure XmlParam where
  name : String
  values : List (Option String)
  deriving DecidableEq, Repr

/-- The multi-value branch of `parse_xml_request`: keep the stripped text
of every value element whose text is neither `None` nor whitespace-only,
in document order. -/
def cleanValues (vs : List (Option String)) : List String :=
  vs.filterMap (fun o => match o with
    | Option.none => Option.none
    | Option.some t =>
      if pyStrip t = "" then Option.none else Option.some (pyStrip t))

/-- The body of the `for param in root.findall('parameter')` loop of
`cdc_wonder_extractor.parse_xml_request` (lines 57-77). -/
def parseStep (params : Params) (p : XmlParam) : Params :=
  match p.values with
  | [Option.some v] =>
    let w := pyStrip v
    if w = "" then params else dictSet params p.name (PValue.str w)
  | [Option.none] => dictSet params p.name PValue.null
  | _ =>
    let values := cleanValues p.values
    if values = [] then params else dictSet params p.name (PValue.list values)

/-- `cdc_wonder_extractor.parse_xml_request`: fold the per-parameter step
over the document in order, starting from the empty dict. -/
def parse_xml_request (doc : List XmlParam) : Params :=
  doc.foldl parseStep []

/-- The result of one `session.post` call: either a transport-level
`RequestException`, or an HTTP response with a status and a body. -/
inductive HttpResult where
  | transportError
  | response (status : Nat) (body : String)
  deriving DecidableEq, Repr

/-- A side effect of `submit_request`: a POST carrying the submitted
parameter set, a `time.sleep` of a given duration, or a diagnostic file
write. -/
inductive Event where
  | post (data : Params)
  | sleep (t : Rat)
  | fileWrite (path : String) (body : String)
  deriving DecidableEq, Repr

/-- How `submit_request` terminates: a returned body (HTTP 200), a raised
`HTTPError` carrying a status, a raised transport-level exception, or the
implicit `None` returned when the retry loop completes without returning
or raising. -/
inductive Outcome where
  | ok (body : String)
  | httpError (status : Nat)
  | transportFailed
  | noneReturned
  deriving DecidableEq, Repr

/-- `wait_time = (2 ** attempt) + random.uniform(0, 1)`. -/
def backoff (jitter : Nat → Rat) (attempt : Nat) : Rat :=
  2 ^ attempt + jitter attempt

/-- `response.raise_for_status()` raises exactly for 4xx and 5xx codes. -/
def raisesForStatus (s : Nat) : Bool := 400 ≤ s && s < 600

/-- The `for attempt in range(max_retries)` loop of
`cdc_wonder_extractor.submit_request` (lines 107-179), with `fuel` the
number of loop iterations still available (`maxRetries - attempt`).
Each arm mirrors one branch of the source:
* 200: return the body.
* 400: save `debug_response.html`, then `raise_for_status()`; the raised
  `HTTPError` is a `RequestException`, so it is caught by the handler,
  which sleeps and retries unless this was the last attempt.
* 502: sleep and retry, or `raise_for_status()` on the last attempt.
* 504: sleep and retry, or save `timeout_response.html` and
  `raise_for_status()` on the last attempt.
* any other 4xx/5xx: the final `raise_for_status()` raises and the
  handler sleeps/retries or re-raises.
* any other status (e.g. 201, 204, 3xx): `raise_for_status()` does
  nothing and the loop advances with no sleep; when it completes the
  function implicitly returns `None`. -/
def submitLoop (rp : Params) (endpoint : Nat → HttpResult) (jitter : Nat → Rat)
    (maxRetries : Nat) : Nat → Nat → List Event × Outcome
  | 0, _ => ([], Outcome.noneReturned)
  | fuel + 1, attempt =>
    match endpoint attempt with
    | HttpResult.transportError =>
      if attempt < maxRetries - 1 then
        let r := submitLoop rp endpoint jitter maxRetries fuel (attempt + 1)
        (Event.post rp :: Event.sleep (backoff jitter attempt) :: r.1, r.2)
      else
        ([Event.post rp], Outcome.transportFailed)
    | HttpResult.response s body =>
      if s = 200 then
        ([Event.post rp], Outcome.ok body)
      else if s = 400 then
        if attempt < maxRetries - 1 then
          let r := submitLoop rp endpoint jitter maxRetries fuel (attempt + 1)
          (Event.post rp :: Event.fileWrite "debug_response.html" body ::
            Event.sleep (backoff jitter attempt) :: r.1, r.2)
        else
          ([Event.post rp, Event.fileWrite "debug_response.html" body],
            Outcome.httpError 400)
      else if s = 502 then
        if attempt < maxRetries - 1 then
          let r := submitLoop rp endpoint jitter maxRetries fuel (attempt + 1)
          (Event.post rp :: Event.sleep (backoff jitter attempt) :: r.1, r.2)
        else
          ([Event.post rp], Outcome.httpError 502)
      else if s = 504 then
        if attempt < maxRetries - 1 then
          let r := submitLoop rp endpoint jitter maxRetries fuel (attempt + 1)
          (Event.post rp :: Event.sleep (backoff jitter attempt) :: r.1, r.2)
        else
          ([Event.post rp, Event.fileWrite "timeout_response.html" body],
            Outcome.httpError 504)
      else if raisesForStatus s then
        if attempt < maxRetries - 1 then
          let r := submitLoop rp endpoint jitter maxRetries fuel (attempt + 1)
          (Event.post rp :: Event.sleep (backoff jitter attempt) :: r.1, r.2)
        else
          ([Event.post rp], Outcome.httpError s)
      else
        let r := submitLoop rp endpoint jitter maxRetries fuel (attempt + 1)
        (Event.post rp :: r.1, r.2)

/-- `cdc_wonder_extractor.submit_request`: preprocess the parameters and
run the retry loop from attempt 0 with `max_retries` iterations of fuel. -/
def submit_request (params : Params) (endpoint : Nat → HttpResult)
    (jitter : Nat → Rat) (maxRetries : Nat) : List Event × Outcome :=
  submitLoop (submit_request_params params) endpoint jitter maxRetries maxRetries 0

/-- The durations of the backoff sleeps in a trace, in order. -/
def sleeps (evs : List Event) : List Rat :=
  evs.filterMap (fun e => match e with
    | Event.sleep t => Option.some t
    | _ => Option.none)

/-- The number of POST attempts in a trace. -/
def postCount (evs : List Event) : Nat :=
  (evs.filter (fun e => match e with
    | Event.post _ => true
    | _ => false)).length

/-- The diagnostic file writes in a trace, in order. -/
def fileWrites (evs : List Event) : List (String × String) :=
  evs.filterMap (fun e => match e with
    | Event.fileWrite p b => Option.some (p, b)
    | _ => Option.none)

/-- The environment seen by the orchestrator: which paths exist on disk,
what parsing a descriptor file yields (`Option.none` models the
`ET.parse` exception on malformed input), what submitting a parameter
set does, and whether writing a given output path succeeds. -/
structure Env where
  fileExists : String → Bool
  parse : String → Option Params
  submit : Params → List Event × Outcome
  writeOk : String → Bool

/-- `cdc_wonder_extractor.extract_dataset` (lines 181-199): parse, submit,
write, with every exception caught and turned into `false`.  The second
component records whether the client (`submit_request`) was invoked.
A `noneReturned` submit outcome reaches `f.write(data)` with
`data = None`, which raises `TypeError`, so it also yields `false`. -/
def extract_dataset (env : Env) (xmlPath outputPath : String) : Bool × Bool :=
  match env.parse xmlPath with
  | Option.none => (false, false)
  | Option.some params =>
    match (env.submit params).2 with
    | Outcome.ok _ => (env.writeOk outputPath, true)
    | _ => (false, true)

/-- The fixed `dataset_mappings` dict of
`cdc_wonder_extractor.extract_all_datasets` (lines 209-213). -/
def dataset_mappings : List (String × String) :=
  [("Provisional_Mortality_Statistics_2018_through_Last_Week_1760806798363-req.xml",
      "d176_provisional_2018_current.csv"),
    ("Official_1999-2020_Synthetic_Opioid_Deaths-req.xml",
      "d77_official_1999_2020.csv"),
    ("Official_2018-2023_Synthetic_Opioid_Deaths-req.xml",
      "d157_official_2018_2023.csv")]

/-- `os.path.join(dir, file)`. -/
def pathJoin (dir file : String) : String := dir ++ "/" ++ file

/-- `cdc_wonder_extractor.extract_all_datasets` (lines 201-230): iterate
the configured pairs in order; a pair whose XML file is missing is
recorded `false` without touching the client.  The first component is the
`results` dict; since it is keyed by the xml file name while iterating the
keys of the `dataset_mappings` dict, each key is assigned exactly once,
so it is recorded as a list of entries in iteration order.  The second
component lists the xml files for which the client was invoked.  The
fixed 2-second politeness `time.sleep(2)` after each processed pair is
not recorded, as no claim concerns it. -/
def extract_all_datasets (env : Env) (pairs : List (String × String))
    (sourceDir outputDir : String) : List (String × Bool) × List String :=
  pairs.foldl (fun acc pr =>
    let xmlPath := pathJoin sourceDir pr.1
    let outputPath := pathJoin outputDir pr.2
    if env.fileExists xmlPath then
      let r := extract_dataset env xmlPath outputPath
      (acc.1 ++ [(pr.1, r.1)], acc.2 ++ (if r.2 then [pr.1] else []))
    else
      (acc.1 ++ [(pr.1, false)], acc.2)) ([], [])

/-- The exit-status computation of `cdc_wonder_extractor.main`
(lines 252-259): `all(results.values())` decides between `return 0` and
`return 1`. -/
def main_exit (results : List (String × Bool)) : Nat :=
  if results.all (fun p => p.2) then 0 else 1

/-- Specification form of one orchestrator result entry, used to state
the characterization of `extract_all_datasets`: the recorded success
boolean for one configured pair. -/
def extractEntry (env : Env) (sourceDir outputDir : String)
    (pr : String × String) : String × Bool :=
  (pr.1, if env.fileExists (pathJoin sourceDir pr.1) then
    (extract_dataset env (pathJoin sourceDir pr.1) (pathJoin outputDir pr.2)).1
  else false)

/-- Specification form of one orchestrator client invocation, used to
state the characterization of `extract_all_datasets`: `some pr.1` exactly
when the pair's descriptor file exists and the client was invoked for it. -/
def extractCall (env : Env) (sourceDir outputDir : String)
    (pr : String × String) : Option String :=
  if env.fileExists (pathJoin sourceDir pr.1) then
    (if (extract_dataset env (pathJoin sourceDir pr.1)
        (pathJoin outputDir pr.2)).2 then
      Option.some pr.1
    else Option.none)
  else Option.none

/-- Concrete endpoint for the C1 witness: 502, then 504, then 200. -/
def c1Endpoint : Nat → HttpResult := fun n =>
  if n = 0 then HttpResult.response 502 "bad gateway"
  else if n = 1 then HttpResult.response 504 "gateway timeout"
  else HttpResult.response 200 "year\tdeaths"

/-- Concrete environment for the C9 witness: parsing always succeeds with
an empty parameter dict and submission runs the real client against an
endpoint that always answers 201. -/
def c9Env : Env where
  fileExists := fun _ => true
  parse := fun _ => Option.some []
  submit := fun p =>
    submit_request p (fun _ => HttpResult.response 201 "created") (fun _ => 0) 3
  writeOk := fun _ => true

/-- Concrete three-parameter descriptor for the C6 witness: a scalar
parameter, a two-valued parameter, and a whitespace-only parameter. -/
def c6doc : List XmlParam :=
  [⟨"a", [Option.some " x "]⟩, ⟨"b", [Option.some "1", Option.some "2"]⟩,
    ⟨"c", [Option.some " "]⟩]

/-- Concrete environment for the C7 witness: the second configured
descriptor file is missing, parsing always succeeds with an empty dict,
submission always fails at the transport level, writes succeed. -/
def c7Env : Env where
  fileExists := fun path =>
    path != "src/Official_1999-2020_Synthetic_Opioid_Deaths-req.xml"
  parse := fun _ => Option.some []
  submit := fun _ => ([], Outcome.transportFailed)
  writeOk := fun _ => true

end CdcWonder

namespace GSheets

/-- The end-column computation of
`load_gcloud.upload_to_google_sheets` (line 119), modelled on code
points: `col_end = chr(ord('A') + num_cols - 1) if num_cols > 0 else 'A'`
with `ord('A') = 65`; we work with the code point of the resulting
character. -/
def col_end_code (num_cols : Nat) : Nat :=
  if num_cols > 0 then 65 + num_cols - 1 else 65

/-- Whether a code point is an uppercase column letter `A`..`Z`, the only
characters denoting a valid single-letter A1 column. -/
def isUpperColumnLetter (c : Nat) : Bool := 65 ≤ c && c ≤ 90

/-- Whether a code point is an ASCII letter (upper or lower case). -/
def isAsciiAlphaCode (c : Nat) : Bool :=
  (65 ≤ c && c ≤ 90) || (97 ≤ c && c ≤ 122)

/-- The A1 range string `f'A{start_row}:{col_end}{end_row}'` built on
line 122, with the end column given by its code point. -/
def range_name (start_row end_row num_cols : Nat) : String :=
  "A" ++ toString start_row ++ ":" ++
    String.singleton (Char.ofNat (col_end_code num_cols)) ++ toString end_row

end GSheets

namespace CdcWonder

/-- C1: for every parameter mapping and any configured maximum of at least
three attempts, if the endpoint answers 502 or 504 on attempts 0 and 1 and
200 on attempt 2, `submit_request` returns the 200 body verbatim and the
trace contains exactly two backoff sleeps, of durations
`2 ^ 0 + jitter 0` and `2 ^ 1 + jitter 1`. -/
theorem C1_transient_retry_then_success (params : Params)
    (endpoint : Nat → HttpResult) (jitter : Nat → Rat) (maxRetries : Nat)
    (s0 s1 : Nat) (b0 b1 body : String) (hm : 3 ≤ maxRetries)
    (h0 : endpoint 0 = HttpResult.response s0 b0) (hs0 : s0 = 502 ∨ s0 = 504)
    (h1 : endpoint 1 = HttpResult.response s1 b1) (hs1 : s1 = 502 ∨ s1 = 504)
    (h2 : endpoint 2 = HttpResult.response 200 body) :
    (submit_request params endpoint jitter maxRetries).2 = Outcome.ok body ∧
    sleeps (submit_request params endpoint jitter maxRetries).1 =
      [2 ^ 0 + jitter 0, 2 ^ 1 + jitter 1] := by
  obtain ⟨k, rfl⟩ : ∃ k, maxRetries = k + 3 := ⟨maxRetries - 3, by omega⟩
  have ha : 0 < k + 3 - 1 := by omega
  have hb : 1 < k + 3 - 1 := by omega
  rcases hs0 with rfl | rfl <;> rcases hs1 with rfl | rfl <;>
    simp [submit_request, submitLoop, h0, h1, h2, ha, hb, sleeps, backoff]

/-- Witness for C1: the retry-then-success scenario at `max_retries = 3`
with zero jitter draws. -/
theorem C1_transient_retry_then_success_witness :
    (submit_request [] c1Endpoint (fun _ => 0) 3).2 =
        Outcome.ok "year\tdeaths" ∧
    sleeps (submit_request [] c1Endpoint (fun _ => 0) 3).1 =
      [2 ^ 0 + (0 : Rat), 2 ^ 1 + (0 : Rat)] :=
  C1_transient_retry_then_success [] c1Endpoint (fun _ => 0) 3 502 504
    "bad gateway" "gateway timeout" "year\tdeaths" (by decide) rfl
    (Or.inl rfl) rfl (Or.inr rfl) rfl

/-- C2: evaluating the code on an endpoint that always answers HTTP 400,
with the default `max_retries = 3`.  Contrary to the claim (and to the
spec's stated intent), the `HTTPError` raised by `raise_for_status()` in
the 400 branch is a `RequestException`, so the blanket handler catches it
and retries: the client makes 3 attempts, performs 2 backoff sleeps,
persists the body to `debug_response.html` on every attempt, and only
then fails with the 400 error. -/
theorem C2_http400_is_retried :
    (submit_request []
        (fun _ => HttpResult.response 400 "bad request") (fun _ => 0) 3).2 =
        Outcome.httpError 400 ∧
    postCount (submit_request []
        (fun _ => HttpResult.response 400 "bad request") (fun _ => 0) 3).1 = 3 ∧
    (sleeps (submit_request []
        (fun _ => HttpResult.response 400 "bad request") (fun _ => 0) 3).1).length = 2 ∧
    fileWrites (submit_request []
        (fun _ => HttpResult.response 400 "bad request") (fun _ => 0) 3).1 =
      [("debug_response.html", "bad request"), ("debug_response.html", "bad request"),
        ("debug_response.html", "bad request")] :=
  ⟨by decide, by decide, by decide, by decide⟩

/-- Helper: if every remaining attempt gets a 502 response, the loop ends
with the 502 `HTTPError`, writes no diagnostic file, posts once per
remaining attempt and sleeps between consecutive attempts. -/
theorem submitLoop_const502 (rp : Params) (endpoint : Nat → HttpResult)
    (jitter : Nat → Rat) (maxRetries : Nat) (b : Nat → String) :
    ∀ fuel attempt, attempt + fuel = maxRetries → 1 ≤ fuel →
      (∀ i, attempt ≤ i → i < maxRetries →
        endpoint i = HttpResult.response 502 (b i)) →
      (submitLoop rp endpoint jitter maxRetries fuel attempt).2 =
          Outcome.httpError 502 ∧
      fileWrites (submitLoop rp endpoint jitter maxRetries fuel attempt).1 = [] ∧
      postCount (submitLoop rp endpoint jitter maxRetries fuel attempt).1 = fuel ∧
      (sleeps (submitLoop rp endpoint jitter maxRetries fuel attempt).1).length =
        fuel - 1 := by
  intro fuel
  induction fuel with
  | zero => intro attempt _ h1; omega
  | succ n ih =>
    intro attempt hsum _ h
    have he := h attempt le_rfl (by omega)
    rcases Nat.eq_zero_or_pos n with rfl | hn
    · have hlast : ¬ attempt < maxRetries - 1 := by omega
      simp [submitLoop, he, hlast, fileWrites, postCount, sleeps]
    · have hmid : attempt < maxRetries - 1 := by omega
      have hrec := ih (attempt + 1) (by omega) (by omega)
        (fun i hi1 hi2 => h i (by omega) hi2)
      simp [submitLoop, he, hmid, fileWrites, postCount, sleeps] at hrec ⊢
      refine ⟨hrec.1, hrec.2.1, hrec.2.2.1, ?_⟩
      omega

/-- Helper: if every remaining attempt gets a 504 response, the loop ends
with the 504 `HTTPError` after writing the last attempt's body to
`timeout_response.html` (and nothing else), posting once per remaining
attempt and sleeping between consecutive attempts. -/
theorem submitLoop_const504 (rp : Params) (endpoint : Nat → HttpResult)
    (jitter : Nat → Rat) (maxRetries : Nat) (b : Nat → String) :
    ∀ fuel attempt, attempt + fuel = maxRetries → 1 ≤ fuel →
      (∀ i, attempt ≤ i → i < maxRetries →
        endpoint i = HttpResult.response 504 (b i)) →
      (submitLoop rp endpoint jitter maxRetries fuel attempt).2 =
          Outcome.httpError 504 ∧
      fileWrites (submitLoop rp endpoint jitter maxRetries fuel attempt).1 =
        [("timeout_response.html", b (maxRetries - 1))] ∧
      postCount (submitLoop rp endpoint jitter maxRetries fuel attempt).1 = fuel ∧
      (sleeps (submitLoop rp endpoint jitter maxRetries fuel attempt).1).length =
        fuel - 1 := by
  intro fuel
  induction fuel with
  | zero => intro attempt _ h1; omega
  | succ n ih =>
    intro attempt hsum _ h
    have he := h attempt le_rfl (by omega)
    rcases Nat.eq_zero_or_pos n with rfl | hn
    · have hlast : ¬ attempt < maxRetries - 1 := by omega
      have hatt : attempt = maxRetries - 1 := by omega
      simp [submitLoop, he, hlast, fileWrites, postCount, sleeps, ← hatt]
    · have hmid : attempt < maxRetries - 1 := by omega
      have hrec := ih (attempt + 1) (by omega) (by omega)
        (fun i hi1 hi2 => h i (by omega) hi2)
      simp [submitLoop, he, hmid, fileWrites, postCount, sleeps] at hrec ⊢
      refine ⟨hrec.1, hrec.2.1, hrec.2.2.1, ?_⟩
      omega

/-- C4 counterexample: an endpoint that answers 502 on all three attempts.
`submit_request` does fail with the 502 error after exhausting its
retries, but — contrary to the claim — it persists nothing: the 502 path
has no diagnostic file write (only the 504 path has one). -/
theorem C4_counterexample_502_writes_nothing :
    (submit_request [] (fun _ => HttpResult.response 502 "oops")
        (fun _ => 0) 3).2 = Outcome.httpError 502 ∧
    fileWrites (submit_request [] (fun _ => HttpResult.response 502 "oops")
        (fun _ => 0) 3).1 = [] :=
  ⟨by decide, by decide⟩

/-- C4 amended: after exhausting all configured attempts on transient
errors, `submit_request` fails with the corresponding `HTTPError`; in the
504 case the last response body is persisted to `timeout_response.html`
before failing, while in the 502 case no diagnostic file is written. -/
theorem C4_amended_exhausted_retries :
    (∀ (params : Params) (endpoint : Nat → HttpResult) (jitter : Nat → Rat)
        (maxRetries : Nat) (b : Nat → String), 1 ≤ maxRetries →
      (∀ i, i < maxRetries → endpoint i = HttpResult.response 502 (b i)) →
      (submit_request params endpoint jitter maxRetries).2 =
          Outcome.httpError 502 ∧
      fileWrites (submit_request params endpoint jitter maxRetries).1 = [] ∧
      postCount (submit_request params endpoint jitter maxRetries).1 =
        maxRetries) ∧
    (∀ (params : Params) (endpoint : Nat → HttpResult) (jitter : Nat → Rat)
        (maxRetries : Nat) (b : Nat → String), 1 ≤ maxRetries →
      (∀ i, i < maxRetries → endpoint i = HttpResult.response 504 (b i)) →
      (submit_request params endpoint jitter maxRetries).2 =
          Outcome.httpError 504 ∧
      fileWrites (submit_request params endpoint jitter maxRetries).1 =
        [("timeout_response.html", b (maxRetries - 1))] ∧
      postCount (submit_request params endpoint jitter maxRetries).1 =
        maxRetries) := by
  constructor
  · intro params endpoint jitter maxRetries b hm h
    have := submitLoop_const502 (submit_request_params params) endpoint jitter
      maxRetries b maxRetries 0 (by omega) hm (fun i _ hi2 => h i hi2)
    exact ⟨this.1, this.2.1, this.2.2.1⟩
  · intro params endpoint jitter maxRetries b hm h
    have := submitLoop_const504 (submit_request_params params) endpoint jitter
      maxRetries b maxRetries 0 (by omega) hm (fun i _ hi2 => h i hi2)
    exact ⟨this.1, this.2.1, this.2.2.1⟩

/-- Witness for the amended C4 at `max_retries = 2` for both the 502 and
the 504 schedule. -/
theorem C4_amended_exhausted_retries_witness :
    ((submit_request [] (fun _ => HttpResult.response 502 "e") (fun _ => 0) 2).2 =
        Outcome.httpError 502 ∧
      fileWrites (submit_request [] (fun _ => HttpResult.response 502 "e")
        (fun _ => 0) 2).1 = [] ∧
      postCount (submit_request [] (fun _ => HttpResult.response 502 "e")
        (fun _ => 0) 2).1 = 2) ∧
    ((submit_request [] (fun _ => HttpResult.response 504 "t") (fun _ => 0) 2).2 =
        Outcome.httpError 504 ∧
      fileWrites (submit_request [] (fun _ => HttpResult.response 504 "t")
        (fun _ => 0) 2).1 = [("timeout_response.html", "t")] ∧
      postCount (submit_request [] (fun _ => HttpResult.response 504 "t")
        (fun _ => 0) 2).1 = 2) :=
  ⟨C4_amended_exhausted_retries.1 [] (fun _ => HttpResult.response 502 "e")
      (fun _ => 0) 2 (fun _ => "e") (by decide) (fun _ _ => rfl),
    C4_amended_exhausted_retries.2 [] (fun _ => HttpResult.response 504 "t")
      (fun _ => 0) 2 (fun _ => "t") (by decide) (fun _ _ => rfl)⟩

/-- Helper: a trace made only of POSTs contains no sleeps. -/
theorem sleeps_replicate_post (n : Nat) (rp : Params) :
    sleeps (List.replicate n (Event.post rp)) = [] := by
  simp [sleeps]

/-- Helper: if every attempt in the remaining window gets a response whose
status is neither 200 nor in the 4xx/5xx range, the loop silently
advances: it posts once per attempt, never sleeps, writes nothing, and
falls off the end returning `None`. -/
theorem submitLoop_fallthrough (rp : Params) (endpoint : Nat → HttpResult)
    (jitter : Nat → Rat) (maxRetries : Nat) :
    ∀ fuel attempt,
      (∀ i, attempt ≤ i → i < attempt + fuel →
        ∃ s b, endpoint i = HttpResult.response s b ∧ s ≠ 200 ∧
          raisesForStatus s = false) →
      submitLoop rp endpoint jitter maxRetries fuel attempt =
        (List.replicate fuel (Event.post rp), Outcome.noneReturned) := by
  intro fuel
  induction fuel with
  | zero => intro attempt _; rfl
  | succ n ih =>
    intro attempt h
    obtain ⟨s, b, he, hs200, hsr⟩ := h attempt le_rfl (by omega)
    have hs' : ¬ (400 ≤ s ∧ s < 600) := by
      intro hc
      simp [raisesForStatus, hc.1, hc.2] at hsr
    have h400 : s ≠ 400 := by omega
    have h502 : s ≠ 502 := by omega
    have h504 : s ≠ 504 := by omega
    have hrec := ih (attempt + 1) (fun i hi1 hi2 => h i (by omega) (by omega))
    simp [submitLoop, he, hs200, h400, h502, h504, hsr, hrec,
      List.replicate_succ]

/-- C9: if every configured attempt receives a 2xx response other than
200 (e.g. 201 or 204), `submit_request` neither returns a body nor raises:
the loop posts on every attempt with no backoff sleep and falls through,
implicitly returning `None`; `extract_dataset` then passes `None` to
`f.write`, which raises `TypeError`, so the dataset is recorded failed
even though the client was invoked. -/
theorem C9_2xx_non200_returns_none (params : Params)
    (endpoint : Nat → HttpResult) (jitter : Nat → Rat) (maxRetries : Nat)
    (h : ∀ i, i < maxRetries → ∃ s b,
      endpoint i = HttpResult.response s b ∧ 200 ≤ s ∧ s < 300 ∧ s ≠ 200) :
    submit_request params endpoint jitter maxRetries =
      (List.replicate maxRetries (Event.post (submit_request_params params)),
        Outcome.noneReturned) ∧
    sleeps (submit_request params endpoint jitter maxRetries).1 = [] ∧
    (∀ env : Env,
      env.submit = (fun p => submit_request p endpoint jitter maxRetries) →
      ∀ xmlPath outPath descriptorParams,
        env.parse xmlPath = Option.some descriptorParams →
        extract_dataset env xmlPath outPath = (false, true)) := by
  have hmain : submit_request params endpoint jitter maxRetries =
      (List.replicate maxRetries (Event.post (submit_request_params params)),
        Outcome.noneReturned) := by
    refine submitLoop_fallthrough (submit_request_params params) endpoint jitter
      maxRetries maxRetries 0 ?_
    intro i _ hi2
    obtain ⟨s, b, he, hge, hlt, hne⟩ := h i (by omega)
    exact ⟨s, b, he, hne, by simp [raisesForStatus]; omega⟩
  refine ⟨hmain, ?_, ?_⟩
  · rw [hmain]
    exact sleeps_replicate_post maxRetries (submit_request_params params)
  · intro env henv xmlPath outPath descriptorParams hparse
    have hsub : (env.submit descriptorParams).2 = Outcome.noneReturned := by
      rw [henv]
      have := submitLoop_fallthrough (submit_request_params descriptorParams)
        endpoint jitter maxRetries maxRetries 0 ?_
      · simp [submit_request, this]
      · intro i _ hi2
        obtain ⟨s, b, he, hge, hlt, hne⟩ := h i (by omega)
        exact ⟨s, b, he, hne, by simp [raisesForStatus]; omega⟩
    simp [extract_dataset, hparse, hsub]

/-- Helper: an entry of `dictSet l k v` is an entry of `l` or is `(k, v)`. -/
theorem mem_dictSet (l : Params) (k : String) (v : PValue) (p : String × PValue)
    (hp : p ∈ dictSet l k v) : p ∈ l ∨ p = (k, v) := by
  unfold dictSet at hp
  split at hp
  · obtain ⟨q, hq, hqe⟩ := List.mem_map.mp hp
    by_cases hqk : q.1 = k
    · right
      rw [if_pos hqk] at hqe
      exact hqe.symm
    · left
      rw [if_neg hqk] at hqe
      exact hqe ▸ hq
  · rcases List.mem_append.mp hp with h | h
    · exact Or.inl h
    · exact Or.inr (List.mem_singleton.mp h)

/-- Helper: `dictSet l k v` contains the entry `(k, v)`. -/
theorem mem_dictSet_self (l : Params) (k : String) (v : PValue) :
    (k, v) ∈ dictSet l k v := by
  unfold dictSet
  split
  · next h =>
    obtain ⟨q, hq, hqk⟩ := List.any_eq_true.mp h
    refine List.mem_map.mpr ⟨q, hq, ?_⟩
    rw [if_pos (of_decide_eq_true hqk)]
  · exact List.mem_append_right _ (List.mem_singleton.mpr rfl)

/-- Helper: `dictSet` with a different key preserves an entry. -/
theorem mem_dictSet_of_ne (l : Params) (k : String) (v : PValue)
    (q : String × PValue) (hq : q ∈ l) (hne : q.1 ≠ k) :
    q ∈ dictSet l k v := by
  unfold dictSet
  split
  · exact List.mem_map.mpr ⟨q, hq, by rw [if_neg hne]⟩
  · exact List.mem_append_left _ hq

/-- Helper: every string kept by `cleanValues` is non-empty. -/
theorem mem_cleanValues_ne_empty (vs : List (Option String)) (s : String)
    (hs : s ∈ cleanValues vs) : s ≠ "" := by
  simp only [cleanValues, List.mem_filterMap] at hs
  obtain ⟨o, _, he⟩ := hs
  match o with
  | Option.none => simp at he
  | Option.some t =>
    by_cases ht : pyStrip t = ""
    · simp [ht] at he
    · simp [ht] at he
      exact he ▸ ht

/-- Helper: every value stored by the parse fold is neither the empty
string nor a list that is empty or contains the empty string, provided
the accumulator already satisfies this. -/
theorem parse_foldl_values_clean (doc : List XmlParam) :
    ∀ params : Params,
      (∀ q ∈ params, q.2 ≠ PValue.str "" ∧
        ∀ l, q.2 = PValue.list l → l ≠ [] ∧ "" ∉ l) →
      ∀ q ∈ List.foldl parseStep params doc, q.2 ≠ PValue.str "" ∧
        ∀ l, q.2 = PValue.list l → l ≠ [] ∧ "" ∉ l := by
  induction doc with
  | nil => intro params h; simpa using h
  | cons p t ih =>
    intro params h q hq
    rw [List.foldl_cons] at hq
    refine ih (parseStep params p) ?_ q hq
    intro r hr
    unfold parseStep at hr
    split at hr
    · next v =>
      simp only [] at hr
      split at hr
      · exact h r hr
      · next hw =>
        rcases mem_dictSet _ _ _ _ hr with hmem | rfl
        · exact h r hmem
        · exact ⟨by simpa using hw, by simp⟩
    · rcases mem_dictSet _ _ _ _ hr with hmem | rfl
      · exact h r hmem
      · exact ⟨by simp, by simp⟩
    · simp only [] at hr
      split at hr
      · exact h r hr
      · next hvals =>
        rcases mem_dictSet _ _ _ _ hr with hmem | rfl
        · exact h r hmem
        · refine ⟨by simp, ?_⟩
          intro l hl
          simp only [PValue.list.injEq] at hl
          subst hl
          exact ⟨hvals, fun hc => mem_cleanValues_ne_empty _ _ hc rfl⟩

/-- C5 counterexample: a descriptor with one parameter whose single value
element has null text.  The single-value branch of `parse_xml_request`
only guards against non-null text, so `params[name] = None` executes and
the parameter IS present in the mapping, with value null — contradicting
the claim that it is entirely absent. -/
theorem C5_counterexample_null_is_stored :
    ("x", PValue.null) ∈ parse_xml_request [⟨"x", [Option.none]⟩] := by
  decide

/-- C5 amended: a parameter value that is an empty string is never present
in the parsed mapping — neither as a `""` scalar, nor inside a stored
list, and no empty list is stored — but a parameter whose single value is
explicitly null IS stored, with value null (it is only dropped later by
the client's request preprocessing). -/
theorem C5_amended_empty_absent_null_stored (doc : List XmlParam)
    (n : String) (v : PValue) (h : (n, v) ∈ parse_xml_request doc) :
    v ≠ PValue.str "" ∧ ∀ l, v = PValue.list l → l ≠ [] ∧ "" ∉ l :=
  parse_foldl_values_clean doc [] (by simp) (n, v) h

/-- Witness for the amended C5 at a one-parameter descriptor. -/
theorem C5_amended_empty_absent_null_stored_witness :
    PValue.str "a" ≠ PValue.str "" ∧
      ∀ l, PValue.str "a" = PValue.list l → l ≠ [] ∧ "" ∉ l :=
  C5_amended_empty_absent_null_stored [⟨"y", [Option.some " a "]⟩] "y"
    (PValue.str "a") (by decide)

/-- Helper: a parse step for a parameter with a different name preserves
an entry. -/
theorem mem_parseStep_of_ne (params : Params) (p : XmlParam)
    (q : String × PValue) (hq : q ∈ params) (hne : p.name ≠ q.1) :
    q ∈ parseStep params p := by
  unfold parseStep
  split
  · simp only []
    split
    · exact hq
    · exact mem_dictSet_of_ne _ _ _ _ hq (Ne.symm hne)
  · exact mem_dictSet_of_ne _ _ _ _ hq (Ne.symm hne)
  · simp only []
    split
    · exact hq
    · exact mem_dictSet_of_ne _ _ _ _ hq (Ne.symm hne)

/-- Helper: the parse fold preserves an entry whose key differs from the
name of every remaining parameter. -/
theorem mem_parse_foldl_of_ne (t : List XmlParam) :
    ∀ (params : Params) (q : String × PValue), q ∈ params →
      (∀ p ∈ t, p.name ≠ q.1) → q ∈ List.foldl parseStep params t := by
  induction t with
  | nil => intro params q hq _; simpa using hq
  | cons p s ih =>
    intro params q hq hn
    rw [List.foldl_cons]
    exact ih (parseStep params p) q
      (mem_parseStep_of_ne params p q hq (hn p (List.mem_cons_self p s)))
      (fun r hr => hn r (List.mem_cons_of_mem p hr))

/-- C6 counterexample: a descriptor whose single parameter has exactly one
value, the whitespace-only string.  The claim predicts a scalar entry
equal to the trimmed value (the empty string); the parser instead skips
the parameter entirely, producing an empty mapping. -/
theorem C6_counterexample_whitespace_single_value :
    parse_xml_request [⟨"x", [Option.some " "]⟩] = [] := by
  decide

/-- Helper: an entry of a parse step is either an accumulator entry or
carries the processed parameter's name. -/
theorem mem_parseStep (ps : Params) (q : XmlParam) (r : String × PValue)
    (hr : r ∈ parseStep ps q) : r ∈ ps ∨ r.1 = q.name := by
  unfold parseStep at hr
  split at hr
  · simp only [] at hr
    split at hr
    · exact Or.inl hr
    · rcases mem_dictSet _ _ _ _ hr with h | rfl
      · exact Or.inl h
      · exact Or.inr rfl
  · rcases mem_dictSet _ _ _ _ hr with h | rfl
    · exact Or.inl h
    · exact Or.inr rfl
  · simp only [] at hr
    split at hr
    · exact Or.inl hr
    · rcases mem_dictSet _ _ _ _ hr with h | rfl
      · exact Or.inl h
      · exact Or.inr rfl

/-- Helper: a parameter whose single value strips to the empty string is
skipped by the parse step (`continue`). -/
theorem parseStep_eq_of_blank_single (q : XmlParam) (v : String)
    (hv : q.values = [Option.some v]) (hb : pyStrip v = "") :
    ∀ ps : Params, parseStep ps q = ps := by
  intro ps
  unfold parseStep
  rw [hv]
  simp [hb]

/-- Helper: a multi-value parameter all of whose values are null or blank
is skipped by the parse step (`if values:` fails). -/
theorem parseStep_eq_of_blank_multi (q : XmlParam)
    (hlen : 1 < q.values.length) (hb : cleanValues q.values = []) :
    ∀ ps : Params, parseStep ps q = ps := by
  intro ps
  match hval : q.values, hlen with
  | v0 :: v1 :: vs, _ =>
    unfold parseStep
    rw [hval]
    simp [hval ▸ hb]

/-- Helper: if no accumulator entry has key `k` and every document
parameter named `k` is skipped by its parse step, the fold produces no
entry with key `k`. -/
theorem notin_parse_foldl (k : String) :
    ∀ (doc : List XmlParam) (params : Params),
      (∀ w, (k, w) ∉ params) →
      (∀ q ∈ doc, q.name = k → ∀ ps : Params, parseStep ps q = ps) →
      ∀ w, (k, w) ∉ List.foldl parseStep params doc := by
  intro doc
  induction doc with
  | nil => intro params h _ w; simpa using h w
  | cons q t ih =>
    intro params hparams hskip w hw
    rw [List.foldl_cons] at hw
    refine ih (parseStep params q) ?_
      (fun r hr hrk => hskip r (List.mem_cons_of_mem q hr) hrk) w hw
    intro w' hw'
    by_cases hqk : q.name = k
    · rw [hskip q (List.mem_cons_self q t) hqk params] at hw'
      exact hparams w' hw'
    · rcases mem_parseStep params q (k, w') hw' with h | hk1
      · exact hparams w' h
      · exact hqk hk1.symm

/-- C6 amended: in a descriptor whose parameter names are distinct, a
parameter with exactly one non-null value whose stripped form is
non-empty yields a scalar entry equal to the stripped value; a parameter
with more than one value, at least one of which is non-null and
non-blank, yields the ordered list of exactly the non-empty stripped
values in document order.  A parameter with exactly one non-null but
whitespace-only value, and a multi-value parameter with no non-null
non-blank values, yield no entry under their name at all.  (A null
single value is instead stored as null — settled under C5.) -/
theorem C6_amended_scalar_and_list_entries (doc : List XmlParam)
    (hnd : (doc.map XmlParam.name).Nodup) (p : XmlParam) (hp : p ∈ doc) :
    (∀ v, p.values = [Option.some v] → pyStrip v ≠ "" →
      (p.name, PValue.str (pyStrip v)) ∈ parse_xml_request doc) ∧
    (1 < p.values.length → cleanValues p.values ≠ [] →
      (p.name, PValue.list (cleanValues p.values)) ∈ parse_xml_request doc) ∧
    (∀ v, p.values = [Option.some v] → pyStrip v = "" →
      ∀ w, (p.name, w) ∉ parse_xml_request doc) ∧
    (1 < p.values.length → cleanValues p.values = [] →
      ∀ w, (p.name, w) ∉ parse_xml_request doc) := by
  have hinj := List.inj_on_of_nodup_map hnd
  have habsent : (∀ ps : Params, parseStep ps p = ps) →
      ∀ w, (p.name, w) ∉ parse_xml_request doc := by
    intro hpskip w
    refine notin_parse_foldl p.name doc [] (by simp) ?_ w
    intro q hq hqk
    have : q = p := hinj hq hp hqk
    exact this ▸ hpskip
  obtain ⟨s, t, hdoc⟩ := List.append_of_mem hp
  have hrw : parse_xml_request doc =
      List.foldl parseStep (parseStep (List.foldl parseStep [] s) p) t := by
    rw [hdoc]
    simp [parse_xml_request, List.foldl_append]
  have hnames : ∀ r ∈ t, r.name ≠ p.name := by
    intro r hr
    have hnd' : (List.map XmlParam.name (s ++ p :: t)).Nodup := by
      rw [← hdoc]
      exact hnd
    have h2 := (List.nodup_append.mp (by simpa using hnd')).2
    have h3 := (List.nodup_cons.mp h2.1).1
    intro hc
    exact h3 (hc ▸ List.mem_map_of_mem XmlParam.name hr)
  refine ⟨?_, ?_, ?_, ?_⟩
  · intro v hv hne
    rw [hrw]
    refine mem_parse_foldl_of_ne t _ _ ?_ hnames
    unfold parseStep
    rw [hv]
    simp only [if_neg hne]
    exact mem_dictSet_self _ _ _
  · intro hlen hvals
    rw [hrw]
    refine mem_parse_foldl_of_ne t _ _ ?_ hnames
    match hval : p.values, hlen with
    | v0 :: v1 :: vs, _ =>
      unfold parseStep
      rw [hval]
      simp only [if_neg (hval ▸ hvals)]
      exact hval ▸ mem_dictSet_self _ _ _
  · intro v hv hb
    exact habsent (parseStep_eq_of_blank_single p v hv hb)
  · intro hlen hb
    exact habsent (parseStep_eq_of_blank_multi p hlen hb)

/-- Witness for the amended C6: a scalar parameter, a two-valued
parameter and a skipped whitespace-only parameter of a concrete
descriptor. -/
theorem C6_amended_scalar_and_list_entries_witness :
    ("a", PValue.str "x") ∈ parse_xml_request c6doc ∧
    ("b", PValue.list ["1", "2"]) ∈ parse_xml_request c6doc ∧
    ("c", PValue.null) ∉ parse_xml_request c6doc :=
  ⟨(C6_amended_scalar_and_list_entries c6doc (by decide)
        ⟨"a", [Option.some " x "]⟩ (by decide)).1 " x " rfl (by decide),
    (C6_amended_scalar_and_list_entries c6doc (by decide)
        ⟨"b", [Option.some "1", Option.some "2"]⟩ (by decide)).2.1 (by decide)
      (by decide),
    (C6_amended_scalar_and_list_entries c6doc (by decide)
        ⟨"c", [Option.some " "]⟩ (by decide)).2.2.1 " " rfl (by decide)
      PValue.null⟩

/-- Helper: a dict has a key exactly when it has an entry with that key. -/
theorem any_key_iff (l : Params) (k : String) :
    l.any (fun p => p.1 = k) = true ↔ ∃ v, (k, v) ∈ l := by
  rw [List.any_eq_true]
  constructor
  · rintro ⟨q, hq, hk⟩
    have hk' : q.1 = k := of_decide_eq_true hk
    exact ⟨q.2, by rwa [← hk']⟩
  · rintro ⟨v, hv⟩
    exact ⟨(k, v), hv, by simp⟩

/-- Helper: conditionally appending a default preserves entries. -/
theorem mem_addDefault (l : Params) (k : String) (v : PValue)
    (q : String × PValue) (hq : q ∈ l) :
    q ∈ (if l.any (fun p => p.1 = k) then l else l ++ [(k, v)]) := by
  split
  · exact hq
  · exact List.mem_append_left _ hq

/-- Helper: an entry after conditionally appending a default is an old
entry or the default itself. -/
theorem addDefault_mem (l : Params) (k : String) (v : PValue)
    (q : String × PValue)
    (hq : q ∈ (if l.any (fun p => p.1 = k) then l else l ++ [(k, v)])) :
    q ∈ l ∨ q = (k, v) := by
  split at hq
  · exact Or.inl hq
  · rcases List.mem_append.mp hq with h | h
    · exact Or.inl h
    · exact Or.inr (List.mem_singleton.mp h)

/-- Helper: after conditionally appending a default for key `k`, an entry
with key `k` exists. -/
theorem addDefault_key (l : Params) (k : String) (v : PValue) :
    ∃ w, (k, w) ∈ (if l.any (fun p => p.1 = k) then l else l ++ [(k, v)]) := by
  split
  · next h => exact (any_key_iff l k).mp h
  · exact ⟨v, List.mem_append_right _ (List.mem_singleton.mpr rfl)⟩

/-- Helper: conditionally appending a default for key `k` adds no entry
with a different key. -/
theorem addDefault_mem_of_ne (l : Params) (k : String) (v : PValue)
    (K : String) (w : PValue) (hne : K ≠ k)
    (hq : (K, w) ∈ (if l.any (fun p => p.1 = k) then l else l ++ [(k, v)])) :
    (K, w) ∈ l := by
  split at hq
  · exact hq
  · rcases List.mem_append.mp hq with h | h
    · exact h
    · exact absurd (congrArg Prod.fst (List.mem_singleton.mp h)) hne

/-- C3 counterexample: on the empty parameter mapping,
`cdc_wonder_extractor.submit_request` submits only the three defaults and
no `accept_datause_restrictions` consent flag, so the submitted set is not
the one the claim describes (which includes the injected flag). -/
theorem C3_counterexample_no_consent_flag :
    submit_request_params [] ≠ claim_submitted_params [] ∧
    (submit_request_params []).any
      (fun p => p.1 = "accept_datause_restrictions") = false :=
  ⟨by decide, by decide⟩

/-- C3 amended: in `cdc_wonder_extractor.submit_request` the submitted
parameter set keeps exactly the input entries whose value is neither
null, empty, nor `'*None*'`, has `dataset_code`, `stage` and `action-Send`
keys (filled with the documented defaults only when absent), and adds
nothing else; in particular the data-use consent flag is present only if
the input descriptor already supplies it — the client does not inject it.
(The older `extract_data.submit_request` is the converse: it injects the
consent flag and performs no filtering or defaulting.) -/
theorem C3_amended_submitted_params (params : Params) :
    (∀ p ∈ submit_request_params params, keepValue p.2 = true) ∧
    (∃ v, ("dataset_code", v) ∈ submit_request_params params) ∧
    (∃ v, ("stage", v) ∈ submit_request_params params) ∧
    (∃ v, ("action-Send", v) ∈ submit_request_params params) ∧
    ((∃ v, ("accept_datause_restrictions", v) ∈ submit_request_params params) ↔
      (∃ v, ("accept_datause_restrictions", v) ∈ params ∧ keepValue v = true)) ∧
    (∀ p ∈ params, keepValue p.2 = true → p ∈ submit_request_params params) ∧
    (∀ p ∈ submit_request_params params,
      p ∈ params ∨ p = ("dataset_code", PValue.str "D176") ∨
        p = ("stage", PValue.str "request") ∨
        p = ("action-Send", PValue.str "Send")) ∧
    ("accept_datause_restrictions", PValue.str "true") ∈
      submit_request_params_extract_data params := by
  have hF : ∀ p ∈ params.filter (fun p => keepValue p.2),
      p ∈ submit_request_params params := by
    intro p hp
    exact mem_addDefault _ _ _ _ (mem_addDefault _ _ _ _ (mem_addDefault _ _ _ _ hp))
  have hback : ∀ p ∈ submit_request_params params,
      p ∈ params.filter (fun q => keepValue q.2) ∨
        p = ("dataset_code", PValue.str "D176") ∨
        p = ("stage", PValue.str "request") ∨
        p = ("action-Send", PValue.str "Send") := by
    intro p hp
    rcases addDefault_mem _ _ _ _ hp with h3 | rfl
    · rcases addDefault_mem _ _ _ _ h3 with h2 | rfl
      · rcases addDefault_mem _ _ _ _ h2 with h1 | rfl
        · exact Or.inl h1
        · exact Or.inr (Or.inl rfl)
      · exact Or.inr (Or.inr (Or.inl rfl))
    · exact Or.inr (Or.inr (Or.inr rfl))
  refine ⟨?_, ?_, ?_, ?_, ⟨?_, ?_⟩, ?_, ?_, ?_⟩
  · intro p hp
    rcases hback p hp with h | rfl | rfl | rfl
    · exact (List.mem_filter.mp h).2
    · rfl
    · rfl
    · rfl
  · obtain ⟨w, hw⟩ := addDefault_key (params.filter (fun p => keepValue p.2))
      "dataset_code" (PValue.str "D176")
    exact ⟨w, mem_addDefault _ _ _ _ (mem_addDefault _ _ _ _ hw)⟩
  · obtain ⟨w, hw⟩ := addDefault_key
      (if (params.filter (fun p => keepValue p.2)).any
          (fun p => p.1 = "dataset_code") then
        params.filter (fun p => keepValue p.2)
      else params.filter (fun p => keepValue p.2) ++
        [("dataset_code", PValue.str "D176")])
      "stage" (PValue.str "request")
    exact ⟨w, mem_addDefault _ _ _ _ hw⟩
  · exact addDefault_key _ "action-Send" (PValue.str "Send")
  · rintro ⟨v, hv⟩
    have h3 := addDefault_mem_of_ne _ _ _ _ _ (by decide) hv
    have h2 := addDefault_mem_of_ne _ _ _ _ _ (by decide) h3
    have h1 := addDefault_mem_of_ne _ _ _ _ _ (by decide) h2
    obtain ⟨hmem, hkeep⟩ := List.mem_filter.mp h1
    exact ⟨v, hmem, hkeep⟩
  · rintro ⟨v, hv, hkeep⟩
    exact ⟨v, hF _ (List.mem_filter.mpr ⟨hv, hkeep⟩)⟩
  · intro p hp hkeep
    exact hF p (List.mem_filter.mpr ⟨hp, hkeep⟩)
  · intro p hp
    rcases hback p hp with h | h | h | h
    · exact Or.inl (List.mem_filter.mp h).1
    · exact Or.inr (Or.inl h)
    · exact Or.inr (Or.inr (Or.inl h))
    · exact Or.inr (Or.inr (Or.inr h))
  · exact mem_dictSet_self _ _ _

/-- Witness for the amended C3 at a two-entry mapping with one dropped
`'*None*'` value. -/
theorem C3_amended_submitted_params_witness :
    (∃ v, ("accept_datause_restrictions", v) ∈
      submit_request_params
        [("B_1", PValue.str "*None*"),
          ("accept_datause_restrictions", PValue.str "true")]) ∧
    (("B_1", PValue.str "*None*") ∈
        submit_request_params
          [("B_1", PValue.str "*None*"),
            ("accept_datause_restrictions", PValue.str "true")] →
      False) :=
  ⟨(C3_amended_submitted_params
      [("B_1", PValue.str "*None*"),
        ("accept_datause_restrictions", PValue.str "true")]).2.2.2.2.1.mpr
      ⟨PValue.str "true", by decide, by decide⟩,
    fun h => by
      have := (C3_amended_submitted_params
        [("B_1", PValue.str "*None*"),
          ("accept_datause_restrictions", PValue.str "true")]).1
        ("B_1", PValue.str "*None*") h
      exact absurd this (by decide)⟩

/-- Witness for C9: an endpoint that always answers 201, `max_retries = 3`. -/
theorem C9_2xx_non200_returns_none_witness :
    submit_request [] (fun _ => HttpResult.response 201 "created")
        (fun _ => 0) 3 =
      (List.replicate 3 (Event.post (submit_request_params [])),
        Outcome.noneReturned) ∧
    extract_dataset c9Env "a.xml" "out.csv" = (false, true) :=
  ⟨(C9_2xx_non200_returns_none [] (fun _ => HttpResult.response 201 "created")
      (fun _ => 0) 3
      (fun i _ => ⟨201, "created", rfl, by omega, by omega, by omega⟩)).1,
    (C9_2xx_non200_returns_none [] (fun _ => HttpResult.response 201 "created")
      (fun _ => 0) 3
      (fun i _ => ⟨201, "created", rfl, by omega, by omega, by omega⟩)).2.2
      c9Env rfl "a.xml" "out.csv" [] rfl⟩

end CdcWonder

namespace CdcWonder

/-- Helper: the orchestrator fold, from any accumulator, appends one
result entry per pair and one client-invocation record per pair whose
file exists and whose extraction reached the client. -/
theorem extract_all_datasets_go (env : Env) (sourceDir outputDir : String) :
    ∀ (pairs : List (String × String))
      (acc : List (String × Bool) × List String),
      pairs.foldl (fun acc pr =>
        let xmlPath := pathJoin sourceDir pr.1
        let outputPath := pathJoin outputDir pr.2
        if env.fileExists xmlPath then
          let r := extract_dataset env xmlPath outputPath
          (acc.1 ++ [(pr.1, r.1)], acc.2 ++ (if r.2 then [pr.1] else []))
        else
          (acc.1 ++ [(pr.1, false)], acc.2)) acc =
      (acc.1 ++ pairs.map (extractEntry env sourceDir outputDir),
        acc.2 ++ pairs.filterMap (extractCall env sourceDir outputDir)) := by
  intro pairs
  induction pairs with
  | nil => intro acc; simp
  | cons pr t ih =>
    intro acc
    rw [List.foldl_cons]
    cases hex : env.fileExists (pathJoin sourceDir pr.1) with
    | false =>
      simp [ih, hex, extractEntry, extractCall, List.filterMap_cons]
    | true =>
      cases hcall : (extract_dataset env (pathJoin sourceDir pr.1)
          (pathJoin outputDir pr.2)).2 with
      | false =>
        simp [ih, hex, hcall, extractEntry, extractCall, List.filterMap_cons]
      | true =>
        simp [ih, hex, hcall, extractEntry, extractCall, List.filterMap_cons]

/-- Helper: closed form of `extract_all_datasets`: one entry per pair in
order, and one invocation record per pair that reached the client. -/
theorem extract_all_datasets_eq (env : Env) (pairs : List (String × String))
    (sourceDir outputDir : String) :
    extract_all_datasets env pairs sourceDir outputDir =
      (pairs.map (extractEntry env sourceDir outputDir),
        pairs.filterMap (extractCall env sourceDir outputDir)) := by
  unfold extract_all_datasets
  rw [extract_all_datasets_go]
  simp

/-- Helper: what a successful `extractCall` record implies. -/
theorem extractCall_eq_some (env : Env) (sourceDir outputDir : String)
    (q : String × String) (x : String)
    (h : extractCall env sourceDir outputDir q = Option.some x) :
    x = q.1 ∧ env.fileExists (pathJoin sourceDir q.1) = true := by
  unfold extractCall at h
  split at h
  · next hcond =>
    split at h
    · exact ⟨(Option.some.inj h).symm, hcond⟩
    · exact absurd h (by simp)
  · exact absurd h (by simp)

/-- C7: over the three configured (descriptor, output) pairs and any
environment, `extract_all_datasets` records exactly one boolean entry per
pair, in order; a pair whose descriptor file is missing is recorded
failed with no client invocation; and every pair with an existing file
has its own extraction outcome recorded regardless of what happens to any
other pair (the per-pair entries depend only on that pair). -/
theorem C7_failure_isolation (env : Env) (sourceDir outputDir : String) :
    (extract_all_datasets env dataset_mappings sourceDir outputDir).1.map
        Prod.fst = dataset_mappings.map Prod.fst ∧
    (∀ pr ∈ dataset_mappings,
      env.fileExists (pathJoin sourceDir pr.1) = false →
        (pr.1, false) ∈
          (extract_all_datasets env dataset_mappings sourceDir outputDir).1 ∧
        pr.1 ∉
          (extract_all_datasets env dataset_mappings sourceDir outputDir).2) ∧
    (∀ pr ∈ dataset_mappings,
      env.fileExists (pathJoin sourceDir pr.1) = true →
        (pr.1, (extract_dataset env (pathJoin sourceDir pr.1)
            (pathJoin outputDir pr.2)).1) ∈
          (extract_all_datasets env dataset_mappings sourceDir outputDir).1) := by
  rw [extract_all_datasets_eq]
  refine ⟨?_, ?_, ?_⟩
  · rfl
  · intro pr hpr hex
    refine ⟨List.mem_map.mpr ⟨pr, hpr, by simp [extractEntry, hex]⟩, ?_⟩
    intro hc
    obtain ⟨q, hq, hqe⟩ := List.mem_filterMap.mp hc
    obtain ⟨hx, hex'⟩ := extractCall_eq_some env sourceDir outputDir q pr.1 hqe
    simp only [dataset_mappings, List.mem_cons, List.mem_singleton,
      List.not_mem_nil, or_false] at hpr hq
    rcases hpr with rfl | rfl | rfl <;> rcases hq with rfl | rfl | rfl <;>
      simp_all
  · intro pr hpr hex
    exact List.mem_map.mpr ⟨pr, hpr, by simp [extractEntry, hex]⟩

/-- Witness for C7: a concrete environment whose second configured
descriptor file is missing while submission always fails. -/
theorem C7_failure_isolation_witness :
    (extract_all_datasets c7Env dataset_mappings "src" "out").1.map
        Prod.fst = dataset_mappings.map Prod.fst ∧
    ("Official_1999-2020_Synthetic_Opioid_Deaths-req.xml", false) ∈
      (extract_all_datasets c7Env dataset_mappings "src" "out").1 ∧
    "Official_1999-2020_Synthetic_Opioid_Deaths-req.xml" ∉
      (extract_all_datasets c7Env dataset_mappings "src" "out").2 :=
  ⟨(C7_failure_isolation c7Env "src" "out").1,
    ((C7_failure_isolation c7Env "src" "out").2.1
      ("Official_1999-2020_Synthetic_Opioid_Deaths-req.xml",
        "d77_official_1999_2020.csv") (by decide) (by decide)).1,
    ((C7_failure_isolation c7Env "src" "out").2.1
      ("Official_1999-2020_Synthetic_Opioid_Deaths-req.xml",
        "d77_official_1999_2020.csv") (by decide) (by decide)).2⟩

/-- C8: the process exit status computed by `main` is zero exactly when
every dataset's result entry is a success; equivalently, any failed entry
forces the non-zero exit status. -/
theorem C8_exit_status_iff_all_success (results : List (String × Bool)) :
    main_exit results = 0 ↔ ∀ p ∈ results, p.2 = true := by
  by_cases h : ∀ p ∈ results, p.2 = true
  · simp [main_exit, List.all_eq_true, h]
  · simp [main_exit, List.all_eq_true, h]

end CdcWonder

namespace GSheets

/-- C10 counterexample: a batch 33 columns wide.  The computed end-column
character is `chr(64 + 33) = 'a'`, which IS alphabetic — contradicting
the claim that every width above 26 yields a non-alphabetic column
character.  (It is still not an uppercase `A`..`Z` column letter, so the
range is still wrong — see the amended theorem.) -/
theorem C10_counterexample_width_33_is_alphabetic :
    26 < 33 ∧ col_end_code 33 = 97 ∧ isAsciiAlphaCode (col_end_code 33) = true :=
  ⟨by decide, by decide, by decide⟩

/-- C10 amended: for any positive batch width, the end column is the
single character of code `ord('A') + num_cols - 1`; it is an uppercase
column letter `A`..`Z` — the only single characters denoting a valid A1
column — exactly when the width is between 1 and 26.  For widths 27..32
the character is not even alphabetic; for widths 33 and beyond it is a
lowercase or other character; in every case a width above 26 yields a
character that is not an uppercase column letter, so the single-letter
range is wrong for any CSV wider than 26 columns. -/
theorem C10_amended_column_letter_iff_width_le_26 (num_cols : Nat)
    (h : 1 ≤ num_cols) :
    col_end_code num_cols = 64 + num_cols ∧
    (isUpperColumnLetter (col_end_code num_cols) = true ↔
      (1 ≤ num_cols ∧ num_cols ≤ 26)) ∧
    (26 < num_cols → num_cols ≤ 32 →
      isAsciiAlphaCode (col_end_code num_cols) = false) ∧
    (26 < num_cols → isUpperColumnLetter (col_end_code num_cols) = false) := by
  have hpos : num_cols > 0 := h
  refine ⟨by simp only [col_end_code, if_pos hpos]; omega, ?_, ?_, ?_⟩
  · simp only [col_end_code, if_pos hpos, isUpperColumnLetter,
      Bool.and_eq_true, decide_eq_true_eq]
    omega
  · intro h27 h32
    simp only [col_end_code, if_pos hpos, isAsciiAlphaCode,
      Bool.or_eq_false_iff, Bool.and_eq_false_iff, decide_eq_false_iff_not]
    omega
  · intro h27
    simp only [col_end_code, if_pos hpos, isUpperColumnLetter,
      Bool.and_eq_false_iff, decide_eq_false_iff_not]
    omega

/-- Witness for the amended C10 at widths 26 and 27. -/
theorem C10_amended_column_letter_iff_width_le_26_witness :
    (col_end_code 26 = 90 ∧ isUpperColumnLetter (col_end_code 26) = true) ∧
    (col_end_code 27 = 91 ∧ isUpperColumnLetter (col_end_code 27) = false) :=
  ⟨⟨(C10_amended_column_letter_iff_width_le_26 26 (by decide)).1,
      ((C10_amended_column_letter_iff_width_le_26 26 (by decide)).2.1).mpr
        (by decide)⟩,
    ⟨(C10_amended_column_letter_iff_width_le_26 27 (by decide)).1,
      (C10_amended_column_letter_iff_width_le_26 27 (by decide)).2.2.2
        (by decide)⟩⟩

end GSheets
